import Mathlib

set_option maxRecDepth 8000

/-! Shallow embedding of the repair-loop orchestrator (`src/agent.py`) and the
sandboxed verifier (`src/executor.py`) of the code-fix agent.

The host Python interpreter facilities that the source delegates to
(`ast.parse`, `compile`, `exec`, `eval`) are modelled by a `PySem` record: an
assignment of outcomes to candidate source strings, with `V` the type of
Python values recovered by `eval`.  All control flow, string manipulation and
aggregation performed by `executor.py` and `agent.py` themselves are
transliterated directly. -/

/-! Executable character-level models of the Python string methods the source
uses (`strip`, `split`, `replace`, `startswith`, `endswith`, `int(...)`),
written with structural recursion so that concrete runs reduce inside the
kernel. -/

/-- Python `str.strip()` on a character list: whitespace dropped from both
ends. -/
def stripChars (l : List Char) : List Char :=
  ((l.dropWhile Char.isWhitespace).reverse.dropWhile Char.isWhitespace).reverse

/-- Python `str.strip()`. -/
def pyStrip (s : String) : String := String.mk (stripChars s.data)

/-- Drop a matching prefix from a character list, or fail. -/
def dropPrefixCL : List Char → List Char → Option (List Char)
  | [], s => some s
  | _ :: _, [] => none
  | p :: ps, c :: cs => if p = c then dropPrefixCL ps cs else none

/-- Fuelled worker for `pySplitOn`: scan left to right, splitting at each
non-overlapping occurrence of the separator. -/
def splitFuel (sep : List Char) : Nat → List Char → List Char → List (List Char)
  | _, [], acc => [acc.reverse]
  | 0, s, acc => [acc.reverse ++ s]
  | fuel + 1, c :: cs, acc =>
    match dropPrefixCL sep (c :: cs) with
    | some rest => acc.reverse :: splitFuel sep fuel rest []
    | none => splitFuel sep fuel cs (c :: acc)

/-- Python `str.split(sep)` for a nonempty separator (all our separators
are nonempty literals). -/
def pySplitOn (s sep : String) : List String :=
  if sep = "" then [s]
  else (splitFuel sep.data (s.data.length + 1) s.data []).map String.mk

/-- Fuelled worker for `pyReplace`. -/
def replaceFuel (pat rep : List Char) : Nat → List Char → List Char → List Char
  | _, [], acc => acc.reverse
  | 0, s, acc => acc.reverse ++ s
  | fuel + 1, c :: cs, acc =>
    match dropPrefixCL pat (c :: cs) with
    | some rest => replaceFuel pat rep fuel rest (rep.reverse ++ acc)
    | none => replaceFuel pat rep fuel cs (c :: acc)

/-- Python `str.replace(pat, rep)` for a nonempty pattern: every
non-overlapping occurrence replaced, left to right. -/
def pyReplace (s pat rep : String) : String :=
  if pat = "" then s
  else String.mk (replaceFuel pat.data rep.data (s.data.length + 1) s.data [])

/-- Python `"sep".join(parts)`. -/
def pyJoin (sep : String) : List String → String
  | [] => ""
  | [x] => x
  | x :: xs => x ++ sep ++ pyJoin sep xs

/-- Python `str.startswith(pre)`. -/
def pyStartsWith (s pre : String) : Bool := pre.data.isPrefixOf s.data

/-- Python `str.endswith(suf)`. -/
def pyEndsWith (s suf : String) : Bool := suf.data.reverse.isPrefixOf s.data.reverse

/-- Drop the first `n` characters. -/
def pyDrop (s : String) (n : Nat) : String := String.mk (s.data.drop n)

/-- Drop the last `n` characters. -/
def pyDropRight (s : String) (n : Nat) : String :=
  String.mk ((s.data.reverse.drop n).reverse)

/-- Decimal digit accumulation for `pyToInt`. -/
def digitsToNat : List Char → Nat → Option Nat
  | [], acc => some acc
  | c :: cs, acc =>
    if c.isDigit then digitsToNat cs (acc * 10 + (c.toNat - 48)) else none

/-- Python `int(s)` restricted to optionally-negated decimal literals (the
only integer texts our scenarios evaluate). -/
def pyToInt (s : String) : Option Int :=
  match s.data with
  | '-' :: ds => if ds = [] then none else (digitsToNat ds 0).map (fun n => -(n : Int))
  | ds => if ds = [] then none else (digitsToNat ds 0).map (fun n => (n : Int))

/-- A Python runtime exception as caught by the outer handler of
`CodeExecutor.execute_code` (line 200-201): its type name, message and
formatted traceback. -/
structure PyFault where
  kind : String
  msg : String
  tb : String
  deriving DecidableEq

/-- Outcome of running one test assertion inside the candidate namespace
(models `exec(test, test_namespace)` in `CodeExecutor.execute_code`):
either it runs to completion, raises `AssertionError`, or raises some other
exception with a kind and message. -/
inductive TestOutcome where
  | pass
  | assertFail
  | errorFail (kind : String) (msg : String)
  deriving DecidableEq

/-- A Python `SyntaxError` as raised by `compile`: line number, column offset
and message.  `CodeExecutor.validate_code` formats its diagnostic from such a
value. -/
structure SynErr where
  lineno : Nat
  offset : Nat
  msg : String
  deriving DecidableEq

/-- Outcome of `compile(code, "<string>", "exec")` in
`CodeExecutor.validate_code`: success, a `SyntaxError`, or any other
exception. -/
inductive CompileOutcome where
  | ok
  | synErr (e : SynErr)
  | otherErr (msg : String)
  deriving DecidableEq

/-- Model of the host Python facilities used by `executor.py`.  Each field
assigns to candidate source text the outcome of the corresponding host call:
`parse` is `ast.parse` (`none` = parses, `some msg` = `str(SyntaxError)`),
`compileRes` is `compile(..., "exec")`, `execFault` is `exec(code, namespace)`
(`none` = no exception, `some msg` = the formatted fault), `execOutput` the
captured stdout, `funcFound` whether a first `ast.FunctionDef` exists in the
code and its name is bound in the post-execution namespace, `testOutcome` the
result of `exec(test, ns)` for a test string, and `evalInNs` the value of
`eval(expr, ns)` (`none` = the eval raised). -/
structure PySem (V : Type) where
  parse : String → Option String
  compileRes : String → CompileOutcome
  execFault : String → Option PyFault
  execOutput : String → String
  funcFound : String → Bool
  testOutcome : String → String → TestOutcome
  evalInNs : String → String → Option V

/-- One entry of `result["failed_tests"]` in `CodeExecutor.execute_code`. -/
structure FailureDetail (V : Type) where
  test_number : Nat
  test : String
  status : String := "FAILED"
  error : String
  type : String
  expected : Option V := none
  actual : Option V := none

/-- The result dictionary built by `CodeExecutor.execute_code`. -/
structure ExecResult (V : Type) where
  success : Bool := false
  output : String := ""
  error : Option String := none
  tests_passed : Nat := 0
  tests_total : Nat := 0
  failed_tests : List (FailureDetail V) := []
  passed_tests : List (Nat × String) := []

/-- Python substring test `sub in s`, via `splitOn`. -/
def containsSub (s sub : String) : Bool := 2 ≤ (pySplitOn s sub).length

/-- Python `str()` of an optional value, where `none` prints as `None`
(mirrors an f-string interpolating a possibly-`None` variable). -/
def pyOptStr {V : Type} [ToString V] : Option V → String
  | some v => toString v
  | none => "None"

/-- Python truthiness of `result.get("error")`: `None` and the empty string
are falsy. -/
def optStrTruthy : Option String → Bool
  | none => false
  | some s => s != ""

/-- The actual/expected recovery of `CodeExecutor.execute_code` (lines
117-138): when the assertion text contains `==`, strip the `assert ` prefix,
split on `==`, require exactly two parts, and `eval` each stripped side in
the test namespace; any failure leaves the corresponding side `None`. -/
def decomposeAssertion {V : Type} (sem : PySem V) (code test : String) :
    Option V × Option V :=
  if 2 ≤ (pySplitOn test "==").length then
    let parts := pySplitOn (pyReplace test "assert " "") "=="
    if parts.length = 2 then
      let call_part := pyStrip (parts.getD 0 "")
      let expected_part := pyStrip (parts.getD 1 "")
      (sem.evalInNs code call_part, sem.evalInNs code expected_part)
    else (none, none)
  else (none, none)

/-- Processing of a single test case in `CodeExecutor.execute_code` (lines
86-188): `none` means the test passed; otherwise the recorded failure entry.
If no function definition is found the test fails with an explicit
diagnostic; an `AssertionError` triggers actual/expected decomposition; any
other exception is recorded with its kind and message, with `unexpected EOF`
syntax errors annotated as malformed test cases. -/
def testStep {V : Type} [ToString V] (sem : PySem V) (code : String) (i : Nat)
    (test : String) : Option (FailureDetail V) :=
  if sem.funcFound code then
    match sem.testOutcome code test with
    | .pass => none
    | .assertFail =>
      let dec := decomposeAssertion sem code test
      let errMsg :=
        match dec.1, dec.2 with
        | some a, some e => "Expected " ++ toString e ++ ", but got " ++ toString a
        | _, _ => "Assertion failed"
      some { test_number := i + 1, test := test, error := errMsg,
             type := "AssertionError", expected := dec.2, actual := dec.1 }
    | .errorFail kind msg =>
      let msg2 :=
        if containsSub kind "SyntaxError" && containsSub msg "unexpected EOF" then
          "INCOMPLETE TEST CASE - The test assertion appears to be cut off or malformed: " ++ msg
        else msg
      some { test_number := i + 1, test := test, error := kind ++ ": " ++ msg2,
             type := kind }
  else
    some { test_number := i + 1, test := test, error := "Function not found in code",
           type := "ExecutionError" }

/-- The summary error string built from `failed_tests` at the end of
`CodeExecutor.execute_code` (lines 190-198): first five failures, then a
count of the rest. -/
def execFailMsg {V : Type} (failed : List (FailureDetail V)) : String :=
  let base := ((failed.take 5).map (fun f =>
    ["Test " ++ toString f.test_number ++ ": " ++ f.test, "  " ++ f.error])).flatten
  let lines :=
    if 5 < failed.length then
      base ++ ["  ... and " ++ toString (failed.length - 5) ++ " more failures"]
    else base
  pyJoin "\n" lines

/-- Transliteration of `CodeExecutor.execute_code`: syntax-check with
`ast.parse`, execute the candidate, and if execution succeeded run each test
case in order, counting passes and recording failure details. A parse or
execution fault leaves `tests_total = 0` and only the diagnostic. -/
def execute_code {V : Type} [ToString V] (sem : PySem V) (code : String)
    (test_cases : List String) : ExecResult V :=
  match sem.parse code with
  | some e => { error := some ("Syntax Error: " ++ e) }
  | none =>
    match sem.execFault code with
    | some f =>
      { error := some (f.kind ++ ": " ++ f.msg ++ "\n" ++ f.tb),
        output := sem.execOutput code }
    | none =>
      if test_cases.isEmpty then
        { success := true, output := sem.execOutput code }
      else
        let failedList := test_cases.enum.filterMap (fun p => testStep sem code p.1 p.2)
        let passedList := (test_cases.enum.filter
          (fun p => (testStep sem code p.1 p.2).isNone)).map (fun p => (p.1 + 1, p.2))
        { success := true, output := sem.execOutput code,
          tests_total := test_cases.length, tests_passed := passedList.length,
          failed_tests := failedList, passed_tests := passedList,
          error := if failedList.isEmpty then none else some (execFailMsg failedList) }

/-- The diagnostic string `CodeExecutor.validate_code` formats from a
`SyntaxError`: it names the line and the message (and nothing else). -/
def synDiagnostic (e : SynErr) : String :=
  "Syntax Error at line " ++ toString e.lineno ++ ": " ++ e.msg

/-- Transliteration of `CodeExecutor.validate_code`: `compile` the candidate;
on success `(true, "")`, on `SyntaxError` the line/message diagnostic, on any
other exception a validation-error diagnostic. -/
def validate_code {V : Type} (sem : PySem V) (code : String) : Bool × String :=
  match sem.compileRes code with
  | .ok => (true, "")
  | .synErr e => (false, synDiagnostic e)
  | .otherErr m => (false, "Validation Error: " ++ m)

/-- The result dictionary returned by `run_code_tool` in `agent.py`; fields
that are only present on some paths are `Option`s (`none` = key absent). -/
structure ToolResult (V : Type) where
  success : Bool
  error : Option String := none
  duplicate_submission : Bool := false
  tests_passed : Option Nat := none
  tests_total : Option Nat := none
  failed_count : Option Nat := none
  failed_tests : List (String × String) := []
  message : Option String := none

/-- Reading of `tool_result.get("tests_total", 0)` as done by the
orchestrator: an absent key defaults to zero. -/
def ToolResult.testsTotalD {V : Type} (r : ToolResult V) : Nat :=
  r.tests_total.getD 0

/-- Reading of `tool_result.get("tests_passed", 0)`. -/
def ToolResult.testsPassedD {V : Type} (r : ToolResult V) : Nat :=
  r.tests_passed.getD 0

/-- One invocation of `run_code_tool`, with the returned dictionary, the new
value of the module-level `_previous_code`, and (for observation) whether the
syntax-validation and execution phases were reached. -/
structure ToolStep (V : Type) where
  result : ToolResult V
  newPrev : Option String
  validated : Bool
  executed : Bool

/-- The duplicate-submission check of `run_code_tool` (line 87):
`_previous_code is not None and code.strip() == _previous_code.strip()`. -/
def dupMatch (prev : Option String) (code : String) : Bool :=
  match prev with
  | some p => pyStrip code == pyStrip p
  | none => false

/-- The stuck-warning message synthesized by `run_code_tool` on a duplicate
submission (lines 88-93). -/
def dupWarning : String :=
  "WARNING: You submitted the EXACT SAME code as your previous attempt!"
    ++ "\n\nYou\x27re stuck in a loop! The tests are failing, which means your fix didn\x27t work."
    ++ "\n\nTry a DIFFERENT approach:"
    ++ "\n  - Re-read the test failures carefully"
    ++ "\n  - Think about what ELSE could cause those failures"
    ++ "\n  - Try a completely different fix"

/-- The detailed failure message built by `run_code_tool` when some tests
fail (lines 157-183): pass count, first three failures with expected/actual
where recovered, a count of further failures, and a debugging hint. -/
def toolFailureMsg {V : Type} [ToString V] (passed total : Nat)
    (failed : List (FailureDetail V)) : String :=
  let d1 := if 0 < passed then [toString passed ++ " test(s) passed"] else []
  let d2 := ["\n" ++ toString (total - passed) ++ " test(s) FAILED:"]
  let d3 := ((failed.take 3).map (fun f =>
    ("\n  Test #" ++ toString f.test_number ++ ": " ++ f.test) ::
    (match f.actual with
     | some a =>
       ["  Expected: " ++ pyOptStr f.expected, "  Got:      " ++ toString a,
        "  Values don\x27t match!"]
     | none => ["  " ++ f.error]))).flatten
  let d4 :=
    if 3 < failed.length then
      ["\n  ... and " ++ toString (failed.length - 3) ++ " more test(s) failed"]
    else []
  let d5 := ["\nDEBUGGING HINT:", "  - Compare the tests that PASS vs those that FAIL",
             "  - Look for patterns in the inputs/outputs"]
  pyJoin "\n" (d1 ++ d2 ++ d3 ++ d4 ++ d5)

/-- Transliteration of `run_code_tool` in `agent.py`: reject empty code,
intercept duplicate submissions before anything else, record the submission
as `_previous_code`, validate syntax, then either run the supplied test cases
(success exactly when all pass and at least one ran) or, with no test cases,
run a bare `pass` probe and succeed when no error was reported. -/
def run_code_tool {V : Type} [ToString V] (sem : PySem V) (tcs : List String)
    (prev : Option String) (code : String) : ToolStep V :=
  if code = "" then
    { result := { success := false, error := some "No code provided" },
      newPrev := prev, validated := false, executed := false }
  else if dupMatch prev code then
    { result := { success := false, error := some dupWarning,
                  duplicate_submission := true },
      newPrev := prev, validated := false, executed := false }
  else
    let prev2 : Option String := some code
    let v := validate_code sem code
    if v.1 = false then
      { result := { success := false, error := some ("Syntax Error:\n" ++ v.2) },
        newPrev := prev2, validated := true, executed := false }
    else if tcs.isEmpty then
      let r := execute_code sem code ["pass"]
      if optStrTruthy r.error then
        { result := { success := false,
                      error := some ("Runtime Error:\n" ++ r.error.getD "") },
          newPrev := prev2, validated := true, executed := true }
      else
        { result := { success := true, message := some "Code runs without errors!" },
          newPrev := prev2, validated := true, executed := true }
    else
      let r := execute_code sem code tcs
      let passed := r.tests_passed
      let total := r.tests_total
      if passed = total ∧ 0 < passed then
        { result := { success := true, tests_passed := some passed,
                      tests_total := some total,
                      message := some ("SUCCESS! All " ++ toString total ++ " tests passed!") },
          newPrev := prev2, validated := true, executed := true }
      else
        { result := { success := false, tests_passed := some passed,
                      tests_total := some total,
                      failed_count := some r.failed_tests.length,
                      failed_tests := r.failed_tests.map (fun f => (f.test, f.error)),
                      error := some (toolFailureMsg passed total r.failed_tests) },
          newPrev := prev2, validated := true, executed := true }

/-- One tool call extracted from the service response
(`tool_call.function`): the function name and the parsed arguments
`function_args.get("code", "")` and `function_args.get("reason", ...)`. -/
structure ToolCall where
  name : String
  code : String
  reason : String

/-- One service interaction of the orchestrator loop, with the bounded
retry/rotation machinery collapsed: either every retry failed (`failure`,
corresponding to the `break` after the last attempt) or an assistant message
carrying a (possibly empty) list of tool calls was obtained. -/
inductive ServiceResponse where
  | failure
  | message (calls : List ToolCall)

/-- The mutable state of one `fix_code` session: `final_code` and
`consecutive_failures` are the local variables of that name, `prev` is the
module-level `_previous_code` (reset at session start).  `succeeded`,
`verifies` and `calls` are observation-only counters recording whether the
loop returned through the all-tests-passed branch, how many `run_code_tool`
invocations reached syntax validation (i.e. were not intercepted before it),
and how many service responses were consumed. -/
structure LoopState where
  final_code : Option String := none
  prev : Option String := none
  consecutive_failures : Nat := 0
  succeeded : Bool := false
  verifies : Nat := 0
  calls : Nat := 0

/-- Python `a if a else d` for an optional string (empty string is falsy),
as in `return final_code if final_code else buggy_code`. -/
def pyOrD (o : Option String) (d : String) : String :=
  match o with
  | some s => if s = "" then d else s
  | none => d

/-- The fallthrough return of `fix_code` (lines 651-659): the last submitted
code when present and longer than 20 characters, otherwise the original
buggy code. -/
def fallthrough (buggy : String) (s : LoopState) : String :=
  match s.final_code with
  | some fc => if 20 < fc.length then fc else buggy
  | none => buggy

/-- Processing of the tool calls of one assistant message (lines 571-626):
each `run_code` call is executed through `run_code_tool`, `final_code` is
updated to the submitted code when nonempty, and on a successful result the
loop returns `final_code if final_code else buggy_code` immediately;
otherwise `consecutive_failures` is incremented and the next call is
processed.  Calls to unrecognized tool names are skipped.  `Sum.inl` is the
state for the next iteration; `Sum.inr` an immediate return. -/
def processCalls {V : Type} [ToString V] (sem : PySem V) (tcs : List String)
    (buggy : String) : LoopState → List ToolCall → LoopState ⊕ (String × LoopState)
  | s, [] => Sum.inl s
  | s, c :: rest =>
    if c.name = "run_code" then
      let step := run_code_tool sem tcs s.prev c.code
      let s1 := { s with prev := step.newPrev,
                         verifies := s.verifies + (if step.validated then 1 else 0) }
      let s2 := if c.code = "" then s1 else { s1 with final_code := some c.code }
      if step.result.success then
        Sum.inr (pyOrD s2.final_code buggy, { s2 with succeeded := true })
      else
        processCalls sem tcs buggy
          { s2 with consecutive_failures := s2.consecutive_failures + 1 } rest
    else
      processCalls sem tcs buggy s rest

/-- The iteration loop of `TogetherCodeFixAgent.fix_code` (lines 404-659),
driven by a script of service responses: at most `maxIter` iterations; a
total service failure breaks out; a message without tool calls is answered
with a corrective prompt on the first iteration (consuming the iteration)
and breaks the loop on any later one; a message with tool calls is processed
by `processCalls`.  Every exit other than the in-loop success return goes
through the `fallthrough` computation.  The final `LoopState` is returned
alongside the result for observation. -/
def fixLoop {V : Type} [ToString V] (sem : PySem V) (tcs : List String)
    (buggy : String) (maxIter : Nat) :
    Nat → LoopState → List ServiceResponse → String × LoopState
  | _, s, [] => (fallthrough buggy s, s)
  | i, s, r :: rest =>
    if maxIter ≤ i then (fallthrough buggy s, s)
    else
      let s0 := { s with calls := s.calls + 1 }
      match r with
      | .failure => (fallthrough buggy s0, s0)
      | .message cs =>
        if cs.isEmpty then
          if i = 0 then fixLoop sem tcs buggy maxIter (i + 1) s0 rest
          else (fallthrough buggy s0, s0)
        else
          match processCalls sem tcs buggy s0 cs with
          | Sum.inl s2 => fixLoop sem tcs buggy maxIter (i + 1) s2 rest
          | Sum.inr out => out

/-- A whole `fix_code` session (result and final state): globals reset
(`_previous_code = None`), fresh local state, then the iteration loop. -/
def fixRun {V : Type} [ToString V] (sem : PySem V) (tcs : List String)
    (buggy : String) (maxIter : Nat) (responses : List ServiceResponse) :
    String × LoopState :=
  fixLoop sem tcs buggy maxIter 0 {} responses

/-- A value bound in the execution namespace: either one directly whitelisted
builtin function, or the host module bound at key `__builtins__`. -/
inductive NsValue where
  | safeBuiltin (name : String)
  | fullBuiltinsModule

/-- The whitelisted builtin names the executor binds directly (executor.py
lines 54-73). -/
def whitelistNames : List String :=
  ["print", "len", "range", "list", "dict", "set", "tuple", "str", "int",
   "float", "bool", "abs", "max", "min", "sum", "sorted", "enumerate", "zip",
   "map", "filter"]

/-- The namespace dictionary of executor.py line 52-74: the key
`"__builtins__"` is bound to the host `__builtins__` module (line 53), and
each whitelisted name to the corresponding builtin. -/
def execNamespace : List (String × NsValue) :=
  ("__builtins__", NsValue.fullBuiltinsModule)
    :: whitelistNames.map (fun n => (n, NsValue.safeBuiltin n))

/-- Representative names exported by the CPython full builtins module,
including the filesystem (`open`), import (`__import__`), process-level
(`exit`), reflection (`getattr`, `vars`, `globals`) and dynamic-execution
primitives, alongside the harmless ones. -/
def fullBuiltinsNames : List String :=
  ["open", "__import__", "eval", "exec", "compile", "getattr", "setattr",
   "delattr", "globals", "locals", "vars", "input", "exit", "quit", "print",
   "len", "range", "abs", "max", "min", "sum"]

/-- CPython name resolution for a global name inside `exec(code, ns)`: the
name resolves iff it is a key of `ns`, or the value bound at key
`__builtins__` is a module exporting it. -/
def reachable (ns : List (String × NsValue)) (name : String) : Bool :=
  ns.any (fun p => p.1 = name) ||
  ns.any (fun p => p.1 = "__builtins__" &&
    (match p.2 with
     | NsValue.fullBuiltinsModule => fullBuiltinsNames.contains name
     | NsValue.safeBuiltin _ => false))

/-! Concrete model of the host interpreter for the `def add(a,b): return a-b`
scenario: a miniature integer expression language, an interpreter, and a
parser for the call/literal texts produced by the assertion decomposition. -/

/-- Miniature Python integer expression: literal, parameter reference, or
subtraction. -/
inductive MiniExpr where
  | lit (n : Int)
  | param (s : String)
  | sub (a b : MiniExpr)

/-- A one-function candidate: `def name(params): return body`. -/
structure MiniFunc where
  fname : String
  params : List String
  body : MiniExpr

/-- Evaluation of a miniature expression under a parameter environment. -/
def evalMini (env : String → Option Int) : MiniExpr → Option Int
  | .lit n => some n
  | .param s => env s
  | .sub a b =>
    match evalMini env a, evalMini env b with
    | some x, some y => some (x - y)
    | _, _ => none

/-- Parse a comma-separated list of integer literal arguments. -/
def parseArgs (s : String) : Option (List Int) :=
  (pySplitOn s ",").mapM (fun a => pyToInt (pyStrip a))

/-- Parse a simple call text `f(n1,...,nk)` with integer-literal arguments. -/
def parseCall (s : String) : Option (String × List Int) :=
  if pyEndsWith s ")" then
    match pySplitOn s "(" with
    | [f, rest] => (parseArgs (pyDropRight rest 1)).map (fun args => (pyStrip f, args))
    | _ => none
  else none

/-- Host `eval(expr, ns)` in the namespace holding one defined function `f`:
integer literals evaluate to themselves; a call `f(args)` with the right
arity evaluates the body under the parameter binding; everything else
raises (`none`). -/
def miniEval (f : MiniFunc) (s : String) : Option Int :=
  match pyToInt s with
  | some n => some n
  | none =>
    match parseCall s with
    | some (g, args) =>
      if g = f.fname ∧ args.length = f.params.length then
        evalMini (fun v => (f.params.zip args).lookup v) f.body
      else none
    | none => none

/-- Host `exec(test, ns)` for a test string in the namespace holding `f`:
`pass` runs cleanly; `assert l==r` evaluates both sides and raises
`AssertionError` exactly when they differ; anything else raises. -/
def miniTestOutcome (f : MiniFunc) (t : String) : TestOutcome :=
  if t = "pass" then .pass
  else if pyStartsWith t "assert " then
    match pySplitOn (pyDrop t 7) "==" with
    | [l, r] =>
      match miniEval f (pyStrip l), miniEval f (pyStrip r) with
      | some a, some b => if a = b then .pass else .assertFail
      | _, _ => .errorFail "NameError" "name is not defined"
    | _ => .errorFail "SyntaxError" "invalid syntax"
  else .errorFail "SyntaxError" "invalid syntax"

/-- The buggy candidate of the scenario, `def add(a,b): return a-b`, as a
miniature function. -/
def addFunc : MiniFunc :=
  { fname := "add", params := ["a", "b"], body := MiniExpr.sub (.param "a") (.param "b") }

/-- Source text of the buggy candidate. -/
def addSrc : String := "def add(a,b): return a-b"

/-- The host-interpreter model for the `add` scenario: the candidate parses,
compiles and executes cleanly, defines the function `add`, and tests and
evals behave per the miniature interpreter. -/
def semC8 : PySem Int :=
  { parse := fun _ => none
    compileRes := fun _ => CompileOutcome.ok
    execFault := fun _ => none
    execOutput := fun _ => ""
    funcFound := fun _ => true
    testOutcome := fun _ t => miniTestOutcome addFunc t
    evalInNs := fun _ s => miniEval addFunc s }

/-! Concrete host-interpreter models and scripts used as inputs for the
scenario theorems below. -/

/-- A host model on which every candidate parses, compiles, executes cleanly,
defines a function, and passes every test. -/
def semOk : PySem Int :=
  { parse := fun _ => none
    compileRes := fun _ => CompileOutcome.ok
    execFault := fun _ => none
    execOutput := fun _ => ""
    funcFound := fun _ => true
    testOutcome := fun _ _ => TestOutcome.pass
    evalInNs := fun _ _ => none }

/-- A host model on which every candidate runs but every assertion fails. -/
def semFail : PySem Int :=
  { parse := fun _ => none
    compileRes := fun _ => CompileOutcome.ok
    execFault := fun _ => none
    execOutput := fun _ => ""
    funcFound := fun _ => true
    testOutcome := fun _ _ => TestOutcome.assertFail
    evalInNs := fun _ _ => none }

/-- A concrete syntax error: line 2, column 7, `invalid syntax`. -/
def synErr27 : SynErr := { lineno := 2, offset := 7, msg := "invalid syntax" }

/-- A host model on which `compile` raises `synErr27` for every candidate. -/
def semSyn : PySem Int :=
  { parse := fun _ => none
    compileRes := fun _ => CompileOutcome.synErr synErr27
    execFault := fun _ => none
    execOutput := fun _ => ""
    funcFound := fun _ => true
    testOutcome := fun _ _ => TestOutcome.pass
    evalInNs := fun _ _ => none }

/-- First candidate of the best-versus-last scenario (26 characters). -/
def codeA : String := "def f(x):\n    return x + 1"

/-- Second candidate of the best-versus-last scenario (26 characters). -/
def codeB : String := "def f(x):\n    return x + 2"

/-- The original buggy source used in the loop scenarios. -/
def buggyOrig : String := "def f(x):\n    return x + 9"

/-- Three assertion texts for the best-versus-last scenario. -/
def tcs3 : List String := ["t1", "t2", "t3"]

/-- A host model under which `codeA` passes two of the three assertions of
`tcs3` and `codeB` passes only the first: `codeA` is the best observed
candidate, `codeB` the last. -/
def semBest : PySem Int :=
  { parse := fun _ => none
    compileRes := fun _ => CompileOutcome.ok
    execFault := fun _ => none
    execOutput := fun _ => ""
    funcFound := fun _ => true
    testOutcome := fun c t =>
      if c = codeA then (if t = "t3" then TestOutcome.assertFail else TestOutcome.pass)
      else (if t = "t1" then TestOutcome.pass else TestOutcome.assertFail)
    evalInNs := fun _ _ => none }

/-- A `run_code` tool call submitting `codeA`. -/
def callA : ToolCall := { name := "run_code", code := codeA, reason := "first fix" }

/-- A `run_code` tool call submitting `codeB`. -/
def callB : ToolCall := { name := "run_code", code := codeB, reason := "second fix" }

/-- Service script: submit `codeA` twice (the second submission is
byte-identical, so the duplicate guard intercepts it). -/
def scriptAA : List ServiceResponse :=
  [ServiceResponse.message [callA], ServiceResponse.message [callA]]

/-- On a duplicate submission the whole step is the synthesized stuck verdict:
no validation, no execution, `_previous_code` untouched. -/
lemma runCodeTool_dup {V : Type} [ToString V] (sem : PySem V) (tcs : List String)
    (prev : Option String) (code : String) (hne : code ≠ "")
    (hdup : dupMatch prev code = true) :
    run_code_tool sem tcs prev code =
      { result := { success := false, error := some dupWarning,
                    duplicate_submission := true },
        newPrev := prev, validated := false, executed := false } := by
  simp [run_code_tool, hne, hdup]

/-- Away from the duplicate branch, the verdict and the validated flag do not
depend on the previously recorded submission. -/
lemma runCodeTool_result_indep_prev {V : Type} [ToString V] (sem : PySem V)
    (tcs : List String) (prev : Option String) (code : String)
    (hnd : dupMatch prev code = false) :
    (run_code_tool sem tcs prev code).result = (run_code_tool sem tcs none code).result ∧
    (run_code_tool sem tcs prev code).validated = (run_code_tool sem tcs none code).validated := by
  by_cases hne : code = ""
  · subst hne; simp [run_code_tool]
  · have h2 : dupMatch none code = false := rfl
    simp [run_code_tool, hne, hnd, h2]

/-- Claim C7 (confirmed): submitting a candidate identical, after stripping
surrounding whitespace, to the recorded previous submission yields the
stuck-signal duplicate verdict with `success = false`, and neither syntax
validation nor execution is performed. -/
theorem c7_duplicate_guard {V : Type} [ToString V] (sem : PySem V) (tcs : List String)
    (p code : String) (hne : code ≠ "") (hdup : pyStrip code = pyStrip p) :
    (run_code_tool sem tcs (some p) code).result.success = false ∧
    (run_code_tool sem tcs (some p) code).result.duplicate_submission = true ∧
    (run_code_tool sem tcs (some p) code).result.error = some dupWarning ∧
    (run_code_tool sem tcs (some p) code).validated = false ∧
    (run_code_tool sem tcs (some p) code).executed = false := by
  have hd : dupMatch (some p) code = true := by simp [dupMatch, hdup]
  rw [runCodeTool_dup sem tcs (some p) code hne hd]
  simp

/-- Witness for C7 at a concrete resubmission of `codeA`. -/
theorem c7_duplicate_guard_witness :
    codeA ≠ "" ∧ pyStrip codeA = pyStrip codeA ∧
    ((run_code_tool semFail tcs3 (some codeA) codeA).result.success = false ∧
     (run_code_tool semFail tcs3 (some codeA) codeA).result.duplicate_submission = true ∧
     (run_code_tool semFail tcs3 (some codeA) codeA).result.error = some dupWarning ∧
     (run_code_tool semFail tcs3 (some codeA) codeA).validated = false ∧
     (run_code_tool semFail tcs3 (some codeA) codeA).executed = false) :=
  ⟨by decide, rfl, c7_duplicate_guard semFail tcs3 codeA codeA (by decide) rfl⟩

/-- Claim C3 (code bug): the execution namespace is not restricted to the
curated whitelist — because `executor.py` line 53 binds the full host
`__builtins__` module into the namespace, the filesystem primitive `open`,
the import primitive `__import__` and the dynamic-execution primitive `eval`
all resolve inside the candidate code, even though none of them is in the
whitelist. -/
theorem c3_full_builtins_reachable :
    reachable execNamespace "open" = true ∧
    reachable execNamespace "__import__" = true ∧
    reachable execNamespace "eval" = true ∧
    whitelistNames.contains "open" = false ∧
    whitelistNames.contains "__import__" = false := by decide

/-- Claim C8 (confirmed): verifying `def add(a,b): return a-b` against the
single assertion `assert add(1,2)==3` produces a rejected verdict with
`tests_passed = 0`, `tests_total = 1`, and a failure detail with
`actual = -1`, `expected = 3`, recovered by decomposing the assertion text
around `==` and evaluating both sides in the candidate namespace. -/
theorem c8_add_scenario :
    (run_code_tool semC8 ["assert add(1,2)==3"] none addSrc).result.success = false ∧
    (run_code_tool semC8 ["assert add(1,2)==3"] none addSrc).result.tests_passed = some 0 ∧
    (run_code_tool semC8 ["assert add(1,2)==3"] none addSrc).result.tests_total = some 1 ∧
    (execute_code semC8 addSrc ["assert add(1,2)==3"]).failed_tests.map
      (fun f => (f.actual, f.expected)) = [(some (-1), some 3)] ∧
    decomposeAssertion semC8 addSrc "assert add(1,2)==3" = (some (-1), some 3) := by
  decide

/-- Counterexample to C6 as stated: the syntax diagnostic does not name the
column — two syntax errors at the same line with the same message but
different columns (7 and 13) produce the identical diagnostic, which equals
the column-free text `Syntax Error at line 2: invalid syntax`. -/
theorem c6_no_column_counterexample :
    synDiagnostic { lineno := 2, offset := 7, msg := "invalid syntax" } =
      synDiagnostic { lineno := 2, offset := 13, msg := "invalid syntax" } ∧
    synDiagnostic { lineno := 2, offset := 7, msg := "invalid syntax" } =
      "Syntax Error at line 2: invalid syntax" ∧
    containsSub "Syntax Error at line 2: invalid syntax" "7" = false := by
  refine ⟨rfl, by decide, by decide⟩

/-- Claim C6 (amended): for a syntactically invalid candidate, regardless of
the assertion list, the verdict is rejected, carries no test counts (read as
`tests_total = 0` by the orchestrator), the diagnostic names the line and
message, and execution is never attempted. -/
theorem c6_syntax_error_verdict {V : Type} [ToString V] (sem : PySem V)
    (tcs : List String) (prev : Option String) (code : String) (hne : code ≠ "")
    (hnd : dupMatch prev code = false) (e : SynErr)
    (hsyn : sem.compileRes code = CompileOutcome.synErr e) :
    (run_code_tool sem tcs prev code).result.success = false ∧
    (run_code_tool sem tcs prev code).result.tests_total = none ∧
    (run_code_tool sem tcs prev code).result.testsTotalD = 0 ∧
    (run_code_tool sem tcs prev code).executed = false ∧
    (run_code_tool sem tcs prev code).result.error =
      some ("Syntax Error:\n" ++ synDiagnostic e) := by
  simp [run_code_tool, hne, hnd, validate_code, hsyn, ToolResult.testsTotalD]

/-- Witness for C6 at a concrete invalid candidate. -/
theorem c6_syntax_error_verdict_witness :
    codeA ≠ "" ∧ dupMatch none codeA = false ∧
    semSyn.compileRes codeA = CompileOutcome.synErr synErr27 ∧
    ((run_code_tool semSyn tcs3 none codeA).result.success = false ∧
     (run_code_tool semSyn tcs3 none codeA).result.tests_total = none ∧
     (run_code_tool semSyn tcs3 none codeA).result.testsTotalD = 0 ∧
     (run_code_tool semSyn tcs3 none codeA).executed = false ∧
     (run_code_tool semSyn tcs3 none codeA).result.error =
       some ("Syntax Error:\n" ++ synDiagnostic synErr27)) :=
  ⟨by decide, rfl, rfl, c6_syntax_error_verdict semSyn tcs3 none codeA (by decide) rfl synErr27 rfl⟩

/-- Claim C10 (confirmed): the duplicate store is updated before syntax
validation, so an invalid candidate becomes the recorded previous
submission; resubmitting the identical invalid source yields the duplicate
stuck verdict without re-validating; and an empty code string is rejected
with `No code provided` without touching the store. -/
theorem c10_prev_update_order {V : Type} [ToString V] (sem : PySem V)
    (tcs : List String) (prev : Option String) (code : String) (hne : code ≠ "")
    (hnd : dupMatch prev code = false) (e : SynErr)
    (hsyn : sem.compileRes code = CompileOutcome.synErr e) :
    (run_code_tool sem tcs prev code).newPrev = some code ∧
    (run_code_tool sem tcs prev code).result.error =
      some ("Syntax Error:\n" ++ synDiagnostic e) ∧
    (run_code_tool sem tcs prev code).executed = false ∧
    (run_code_tool sem tcs (some code) code).result.duplicate_submission = true ∧
    (run_code_tool sem tcs (some code) code).validated = false ∧
    (run_code_tool sem tcs (some code) code).result.error = some dupWarning ∧
    (run_code_tool sem tcs prev "").result.error = some "No code provided" ∧
    (run_code_tool sem tcs prev "").newPrev = prev := by
  have hd : dupMatch (some code) code = true := by simp [dupMatch]
  rw [runCodeTool_dup sem tcs (some code) code hne hd]
  simp [run_code_tool, hne, hnd, validate_code, hsyn]

/-- Witness for C10 at a concrete invalid candidate. -/
theorem c10_prev_update_order_witness :
    codeA ≠ "" ∧ dupMatch none codeA = false ∧
    semSyn.compileRes codeA = CompileOutcome.synErr synErr27 ∧
    ((run_code_tool semSyn tcs3 none codeA).newPrev = some codeA ∧
     (run_code_tool semSyn tcs3 none codeA).result.error =
       some ("Syntax Error:\n" ++ synDiagnostic synErr27) ∧
     (run_code_tool semSyn tcs3 none codeA).executed = false ∧
     (run_code_tool semSyn tcs3 (some codeA) codeA).result.duplicate_submission = true ∧
     (run_code_tool semSyn tcs3 (some codeA) codeA).validated = false ∧
     (run_code_tool semSyn tcs3 (some codeA) codeA).result.error = some dupWarning ∧
     (run_code_tool semSyn tcs3 none "").result.error = some "No code provided" ∧
     (run_code_tool semSyn tcs3 none "").newPrev = none) :=
  ⟨by decide, rfl, rfl, c10_prev_update_order semSyn tcs3 none codeA (by decide) rfl synErr27 rfl⟩

/-- A string with a nonempty left part is nonempty. -/
lemma str_append_left_ne (a b : String) (h : a ≠ "") : a ++ b ≠ "" := by
  intro hc
  apply h
  have hd := congrArg String.data hc
  rw [String.data_append] at hd
  exact String.ext (List.append_eq_nil.mp hd).1

/-- A string with a nonempty right part is nonempty. -/
lemma str_append_right_ne (a b : String) (h : b ≠ "") : a ++ b ≠ "" := by
  intro hc
  apply h
  have hd := congrArg String.data hc
  rw [String.data_append] at hd
  exact String.ext (List.append_eq_nil.mp hd).2

/-- The formatted runtime-fault diagnostic is never the empty string. -/
lemma fault_fmt_ne (f : PyFault) : f.kind ++ ": " ++ f.msg ++ "\n" ++ f.tb ≠ "" := by
  apply str_append_left_ne
  apply str_append_left_ne
  apply str_append_left_ne
  apply str_append_right_ne
  decide

/-- The syntax-error diagnostic of the executor is never the empty string. -/
lemma synmsg_ne (e : String) : "Syntax Error: " ++ e ≠ "" :=
  str_append_left_ne _ _ (by decide)

/-- The failed-test summary of the executor for one failure is never empty. -/
lemma execFailMsg_singleton_ne {V : Type} (fd : FailureDetail V) : execFailMsg [fd] ≠ "" := by
  show ("Test " ++ toString fd.test_number ++ ": " ++ fd.test) ++ "\n" ++ ("  " ++ fd.error) ≠ ""
  apply str_append_left_ne
  apply str_append_left_ne
  apply str_append_left_ne
  apply str_append_left_ne
  apply str_append_left_ne
  decide

/-- Claim C2 (amended): when at least one assertion is supplied, the verdict
is accepted iff the (defaulted) test counts satisfy `0 < total` and
`passed = total` and the candidate executed without a runtime fault; a call
supplying zero assertions, however, is accepted exactly when the candidate
compiles, parses, executes without fault, defines a function, and the bare
probe runs cleanly — so zero-assertion calls can be accepted. -/
theorem c2_acceptance_rule {V : Type} [ToString V] (sem : PySem V) (tcs : List String)
    (prev : Option String) (code : String) :
    (tcs ≠ [] →
      ((run_code_tool sem tcs prev code).result.success = true ↔
        0 < (run_code_tool sem tcs prev code).result.testsTotalD ∧
        (run_code_tool sem tcs prev code).result.testsPassedD =
          (run_code_tool sem tcs prev code).result.testsTotalD ∧
        sem.execFault code = none)) ∧
    (tcs = [] →
      ((run_code_tool sem tcs prev code).result.success = true ↔
        code ≠ "" ∧ dupMatch prev code = false ∧
        sem.compileRes code = CompileOutcome.ok ∧
        sem.parse code = none ∧ sem.execFault code = none ∧
        sem.funcFound code = true ∧ sem.testOutcome code "pass" = TestOutcome.pass)) := by
  by_cases hne : code = ""
  · subst hne
    simp [run_code_tool, ToolResult.testsTotalD, ToolResult.testsPassedD]
  by_cases hdup : dupMatch prev code = true
  · rw [runCodeTool_dup sem tcs prev code hne hdup]
    simp [ToolResult.testsTotalD, ToolResult.testsPassedD, hdup]
  have hnd : dupMatch prev code = false := by
    revert hdup; cases dupMatch prev code <;> simp
  rcases hcomp : sem.compileRes code with _ | e | m
  · -- compile ok
    rcases hparse : sem.parse code with _ | e2
    · rcases hfault : sem.execFault code with _ | f
      · -- clean execution
        constructor
        · intro htcs
          have hempty : tcs.isEmpty = false := by
            cases tcs with
            | nil => exact absurd rfl htcs
            | cons a l => rfl
          simp [run_code_tool, hne, hnd, validate_code, hcomp, hempty,
            execute_code, hparse, hfault, ToolResult.testsTotalD, ToolResult.testsPassedD]
          split <;> simp_all <;> omega
        · intro htcs
          subst htcs
          have henum : (["pass"] : List String).enum = [(0, "pass")] := rfl
          by_cases hfunc : sem.funcFound code = true
          · rcases hout : sem.testOutcome code "pass" with _ | _ | ⟨kind, msg⟩
            · have hts : testStep sem code 0 "pass" = none := by
                simp [testStep, hfunc, hout]
              simp [run_code_tool, hne, hnd, validate_code, hcomp, execute_code,
                hparse, hfault, henum, hts, optStrTruthy, hfunc, hout]
            · have hsplit : ¬ (2 ≤ (pySplitOn "pass" "==").length) := by decide
              have hts : testStep sem code 0 "pass" =
                  some { test_number := 1, test := "pass", error := "Assertion failed",
                         type := "AssertionError", expected := none, actual := none } := by
                simp [testStep, hfunc, hout, decomposeAssertion, hsplit]
              simp [run_code_tool, hne, hnd, validate_code, hcomp, execute_code,
                hparse, hfault, henum, hts, optStrTruthy, hout,
                execFailMsg_singleton_ne]
            · have hts : testStep sem code 0 "pass" =
                  some { test_number := 1, test := "pass",
                         error := kind ++ ": " ++
                           (if containsSub kind "SyntaxError" && containsSub msg "unexpected EOF" then
                             "INCOMPLETE TEST CASE - The test assertion appears to be cut off or malformed: " ++ msg
                            else msg),
                         type := kind, expected := none, actual := none } := by
                simp [testStep, hfunc, hout]
              simp [run_code_tool, hne, hnd, validate_code, hcomp, execute_code,
                hparse, hfault, henum, hts, optStrTruthy, hout,
                execFailMsg_singleton_ne]
          · have hfunc2 : sem.funcFound code = false := by
              revert hfunc; cases sem.funcFound code <;> simp
            have hts : testStep sem code 0 "pass" =
                some { test_number := 1, test := "pass", error := "Function not found in code",
                       type := "ExecutionError", expected := none, actual := none } := by
              simp [testStep, hfunc2]
            simp [run_code_tool, hne, hnd, validate_code, hcomp, execute_code,
              hparse, hfault, henum, hts, optStrTruthy, hfunc2,
              execFailMsg_singleton_ne]
      · -- runtime fault during execution
        constructor
        · intro htcs
          have hempty : tcs.isEmpty = false := by
            cases tcs with
            | nil => exact absurd rfl htcs
            | cons a l => rfl
          simp [run_code_tool, hne, hnd, validate_code, hcomp, hempty, execute_code,
            hparse, hfault, ToolResult.testsTotalD, ToolResult.testsPassedD]
        · intro htcs
          subst htcs
          simp [run_code_tool, hne, hnd, validate_code, hcomp, execute_code, hparse,
            hfault, optStrTruthy, fault_fmt_ne]
    · -- parse error
      constructor
      · intro htcs
        have hempty : tcs.isEmpty = false := by
          cases tcs with
          | nil => exact absurd rfl htcs
          | cons a l => rfl
        simp [run_code_tool, hne, hnd, validate_code, hcomp, hempty, execute_code,
          hparse, ToolResult.testsTotalD, ToolResult.testsPassedD]
      · intro htcs
        subst htcs
        simp [run_code_tool, hne, hnd, validate_code, hcomp, execute_code, hparse,
          optStrTruthy, synmsg_ne]
  · -- syntax error on compile
    constructor
    · intro htcs
      simp [run_code_tool, hne, hnd, validate_code, hcomp,
        ToolResult.testsTotalD, ToolResult.testsPassedD]
    · intro htcs
      simp [run_code_tool, hne, hnd, validate_code, hcomp]
  · -- other compile error
    constructor
    · intro htcs
      simp [run_code_tool, hne, hnd, validate_code, hcomp,
        ToolResult.testsTotalD, ToolResult.testsPassedD]
    · intro htcs
      simp [run_code_tool, hne, hnd, validate_code, hcomp]

/-- Counterexample to C2 as stated: a call supplying zero assertions on a
cleanly-executing candidate yields an accepted verdict (the bare-success
path of `run_code_tool`), so "zero assertions can never be accepted" is
false. -/
theorem c2_zero_assertions_accepted_counterexample :
    (run_code_tool semOk ([] : List String) none codeA).result.success = true := by
  decide

/-- Witness for C2 at a concrete nonempty assertion list. -/
theorem c2_acceptance_rule_witness :
    tcs3 ≠ [] ∧
    ((run_code_tool semBest tcs3 none codeA).result.success = true ↔
      0 < (run_code_tool semBest tcs3 none codeA).result.testsTotalD ∧
      (run_code_tool semBest tcs3 none codeA).result.testsPassedD =
        (run_code_tool semBest tcs3 none codeA).result.testsTotalD ∧
      semBest.execFault codeA = none) :=
  ⟨by decide, (c2_acceptance_rule semBest tcs3 none codeA).1 (by decide)⟩

/-- When the per-message tool-call processing continues the loop, it
preserves the `succeeded` flag and the service-call counter. -/
lemma processCalls_inl_state {V : Type} [ToString V] (sem : PySem V) (tcs : List String)
    (buggy : String) : ∀ (cs : List ToolCall) (s s2 : LoopState),
    processCalls sem tcs buggy s cs = Sum.inl s2 →
    s2.succeeded = s.succeeded ∧ s2.calls = s.calls := by
  intro cs
  induction cs with
  | nil =>
    intro s s2 h
    simp [processCalls] at h
    subst h
    exact ⟨rfl, rfl⟩
  | cons c rest ih =>
    intro s s2 h
    by_cases hname : c.name = "run_code"
    · by_cases hs : (run_code_tool sem tcs s.prev c.code).result.success = true
      · simp [processCalls, hname, hs] at h
      · have hsucc : (run_code_tool sem tcs s.prev c.code).result.success = false := by
          revert hs; cases (run_code_tool sem tcs s.prev c.code).result.success <;> simp
        simp [processCalls, hname, hsucc] at h
        obtain ⟨h1, h2⟩ := ih _ _ h
        constructor
        · rw [h1]; by_cases hcode : c.code = "" <;> simp [hcode]
        · rw [h2]; by_cases hcode : c.code = "" <;> simp [hcode]
    · simp [processCalls, hname] at h
      exact ih _ _ h

/-- Claim C5 (confirmed): when the verifier accepts a submitted candidate,
the loop returns exactly the source of that candidate immediately, for every
possible continuation of the service script, and exactly one further service
response was consumed — no service call happens after the acceptance. -/
theorem c5_accept_stops_loop {V : Type} [ToString V] (sem : PySem V) (tcs : List String)
    (buggy : String) (maxIter i : Nat) (s : LoopState) (c : ToolCall)
    (hname : c.name = "run_code") (hi : i < maxIter)
    (hs : (run_code_tool sem tcs s.prev c.code).result.success = true) :
    ∀ rest : List ServiceResponse,
      (fixLoop sem tcs buggy maxIter i s (ServiceResponse.message [c] :: rest)).1 = c.code ∧
      (fixLoop sem tcs buggy maxIter i s (ServiceResponse.message [c] :: rest)).2.calls =
        s.calls + 1 := by
  intro rest
  have hni : ¬ maxIter ≤ i := not_le.mpr hi
  have hcne : c.code ≠ "" := by
    intro hc
    rw [hc] at hs
    simp [run_code_tool] at hs
  have hs0 : (run_code_tool sem tcs ({ s with calls := s.calls + 1 } : LoopState).prev
      c.code).result.success = true := hs
  simp [fixLoop, hni, processCalls, hname, hs0, pyOrD, hcne]

/-- Witness for C5 at a concrete accepting submission followed by a service
failure that is never reached. -/
theorem c5_accept_stops_loop_witness :
    callA.name = "run_code" ∧ (0 : Nat) < 3 ∧
    (run_code_tool semOk tcs3 (LoopState.prev {}) callA.code).result.success = true ∧
    ((fixLoop semOk tcs3 buggyOrig 3 0 {}
        (ServiceResponse.message [callA] :: [ServiceResponse.failure])).1 = callA.code ∧
     (fixLoop semOk tcs3 buggyOrig 3 0 {}
        (ServiceResponse.message [callA] :: [ServiceResponse.failure])).2.calls =
       LoopState.calls {} + 1) :=
  ⟨rfl, by decide, by decide,
   c5_accept_stops_loop semOk tcs3 buggyOrig 3 0 {} callA rfl (by decide) (by decide)
     [ServiceResponse.failure]⟩


/-- A submission rejected with an empty duplicate store is rejected under
every duplicate store: the store can only add the duplicate rejection. -/
lemma runCodeTool_fail_any_prev {V : Type} [ToString V] (sem : PySem V)
    (tcs : List String) (code : String) (prev : Option String)
    (h : (run_code_tool sem tcs none code).result.success = false) :
    (run_code_tool sem tcs prev code).result.success = false := by
  by_cases hne : code = ""
  · subst hne; simp [run_code_tool]
  · by_cases hd : dupMatch prev code = true
    · rw [runCodeTool_dup sem tcs prev code hne hd]
    · have hnd : dupMatch prev code = false := by
        revert hd; cases dupMatch prev code <;> simp
      rw [(runCodeTool_result_indep_prev sem tcs prev code hnd).1]
      exact h

/-- Once the iteration budget is exhausted, the loop returns the fallthrough
value immediately without consuming any response, whatever the service would
still send. -/
lemma fixLoop_budget_stop {V : Type} [ToString V] (sem : PySem V) (tcs : List String)
    (buggy : String) (maxIter : Nat) (responses : List ServiceResponse) (i : Nat)
    (s : LoopState) (hi : maxIter ≤ i) :
    fixLoop sem tcs buggy maxIter i s responses = (fallthrough buggy s, s) := by
  cases responses with
  | nil => rfl
  | cons r rest => simp [fixLoop, hi]

/-- Running the loop with the budget equal to the number of single rejected
tool-call responses at the head of the script, followed by an arbitrary
continuation, gives the same outcome as the script without the continuation:
one service response is consumed per iteration until the budget stops the
loop, the session never succeeds, and at most one verification happens per
iteration. -/
lemma fixLoop_all_fail {V : Type} [ToString V] (sem : PySem V) (tcs : List String)
    (buggy : String) (maxIter : Nat) (rest : List ServiceResponse) :
    ∀ (l : List ToolCall) (i : Nat) (s : LoopState),
    i + l.length = maxIter →
    (∀ c ∈ l, c.name = "run_code" ∧
      (run_code_tool sem tcs none c.code).result.success = false) →
    s.succeeded = false →
    fixLoop sem tcs buggy maxIter i s
        (l.map (fun c => ServiceResponse.message [c]) ++ rest) =
      fixLoop sem tcs buggy maxIter i s (l.map (fun c => ServiceResponse.message [c])) ∧
    (fixLoop sem tcs buggy maxIter i s
        (l.map (fun c => ServiceResponse.message [c]))).2.calls = s.calls + l.length ∧
    (fixLoop sem tcs buggy maxIter i s
        (l.map (fun c => ServiceResponse.message [c]))).2.succeeded = false ∧
    (fixLoop sem tcs buggy maxIter i s
        (l.map (fun c => ServiceResponse.message [c]))).2.verifies ≤ s.verifies + l.length := by
  intro l
  induction l with
  | nil =>
    intro i s hsum hall hsucc
    have hi : maxIter ≤ i := by simp at hsum; omega
    refine ⟨?_, by simp [fixLoop], by simp [fixLoop, hsucc], by simp [fixLoop]⟩
    rw [List.map_nil, List.nil_append,
      fixLoop_budget_stop sem tcs buggy maxIter rest i s hi]
    rfl
  | cons c l2 ih =>
    intro i s hsum hall hsucc
    have hi : ¬ maxIter ≤ i := by simp at hsum; omega
    have hname := (hall c (by simp)).1
    have hfail0 := (hall c (by simp)).2
    have hfail : (run_code_tool sem tcs
        ({ s with calls := s.calls + 1 } : LoopState).prev c.code).result.success = false :=
      runCodeTool_fail_any_prev sem tcs c.code _ hfail0
    rcases hpc : processCalls sem tcs buggy { s with calls := s.calls + 1 } [c]
      with s2 | out
    · have hstep1 : fixLoop sem tcs buggy maxIter i s
          ((c :: l2).map (fun c => ServiceResponse.message [c]) ++ rest) =
          fixLoop sem tcs buggy maxIter (i + 1) s2
            (l2.map (fun c => ServiceResponse.message [c]) ++ rest) := by
        simp [fixLoop, hi, hpc]
      have hstep2 : fixLoop sem tcs buggy maxIter i s
          ((c :: l2).map (fun c => ServiceResponse.message [c])) =
          fixLoop sem tcs buggy maxIter (i + 1) s2
            (l2.map (fun c => ServiceResponse.message [c])) := by
        simp [fixLoop, hi, hpc]
      have hs2 := processCalls_inl_state sem tcs buggy [c]
        { s with calls := s.calls + 1 } s2 hpc
      have hverif : s2.verifies ≤ s.verifies + 1 := by
        simp [processCalls, hname, hfail] at hpc
        rw [← hpc]
        by_cases hcode : c.code = "" <;> simp [hcode] <;> split <;> omega
      have hrec := ih (i + 1) s2 (by simp at hsum ⊢; omega)
        (fun c2 hc2 => hall c2 (by simp [hc2])) (by rw [hs2.1]; exact hsucc)
      refine ⟨?_, ?_, ?_, ?_⟩
      · rw [hstep1, hstep2]
        exact hrec.1
      · rw [hstep2, hrec.2.1, hs2.2]
        simp
        omega
      · rw [hstep2]
        exact hrec.2.2.1
      · rw [hstep2]
        calc (fixLoop sem tcs buggy maxIter (i + 1) s2
              (l2.map (fun c => ServiceResponse.message [c]))).2.verifies
            ≤ s2.verifies + l2.length := hrec.2.2.2
          _ ≤ s.verifies + 1 + l2.length := by omega
          _ = s.verifies + (c :: l2).length := by simp; omega
    · exfalso
      simp [processCalls, hname, hfail] at hpc

/-- Claim C4 (amended): with an iteration budget of N and a service that
never produces an accepted verdict but always calls the tool, the session
ends exhausted after exactly N service-call iterations, for every
continuation the service could still send (the budget guard, not the script,
stops the loop); duplicate-guarded cycles count toward this budget, so at
most N (possibly fewer) real verification cycles occur. -/
theorem c4_budget_exhaustion {V : Type} [ToString V] (sem : PySem V) (tcs : List String)
    (buggy : String) (l : List ToolCall)
    (hall : ∀ c ∈ l, c.name = "run_code" ∧
      (run_code_tool sem tcs none c.code).result.success = false) :
    ∀ rest : List ServiceResponse,
    fixRun sem tcs buggy l.length
        (l.map (fun c => ServiceResponse.message [c]) ++ rest) =
      fixRun sem tcs buggy l.length (l.map (fun c => ServiceResponse.message [c])) ∧
    (fixRun sem tcs buggy l.length
        (l.map (fun c => ServiceResponse.message [c]) ++ rest)).2.calls = l.length ∧
    (fixRun sem tcs buggy l.length
        (l.map (fun c => ServiceResponse.message [c]) ++ rest)).2.succeeded = false ∧
    (fixRun sem tcs buggy l.length
        (l.map (fun c => ServiceResponse.message [c]) ++ rest)).2.verifies ≤ l.length := by
  intro rest
  have h := fixLoop_all_fail sem tcs buggy l.length rest l 0 {} (by omega) hall rfl
  have heq : fixRun sem tcs buggy l.length
      (l.map (fun c => ServiceResponse.message [c]) ++ rest) =
      fixRun sem tcs buggy l.length (l.map (fun c => ServiceResponse.message [c])) := h.1
  refine ⟨heq, ?_, ?_, ?_⟩
  · rw [heq]
    simpa using h.2.1
  · rw [heq]
    exact h.2.2.1
  · rw [heq]
    simpa using h.2.2.2

/-- Witness for C4 at a concrete two-submission script followed by a further
service response that the exhausted budget never consumes. -/
theorem c4_budget_exhaustion_witness :
    (∀ c ∈ [callA, callB], c.name = "run_code" ∧
      (run_code_tool semFail tcs3 none c.code).result.success = false) ∧
    (fixRun semFail tcs3 buggyOrig ([callA, callB] : List ToolCall).length
        ([callA, callB].map (fun c => ServiceResponse.message [c]) ++
          [ServiceResponse.message [callA]]) =
      fixRun semFail tcs3 buggyOrig ([callA, callB] : List ToolCall).length
        ([callA, callB].map (fun c => ServiceResponse.message [c])) ∧
     (fixRun semFail tcs3 buggyOrig ([callA, callB] : List ToolCall).length
        ([callA, callB].map (fun c => ServiceResponse.message [c]) ++
          [ServiceResponse.message [callA]])).2.calls =
       ([callA, callB] : List ToolCall).length ∧
     (fixRun semFail tcs3 buggyOrig ([callA, callB] : List ToolCall).length
        ([callA, callB].map (fun c => ServiceResponse.message [c]) ++
          [ServiceResponse.message [callA]])).2.succeeded = false ∧
     (fixRun semFail tcs3 buggyOrig ([callA, callB] : List ToolCall).length
        ([callA, callB].map (fun c => ServiceResponse.message [c]) ++
          [ServiceResponse.message [callA]])).2.verifies ≤
       ([callA, callB] : List ToolCall).length) :=
  ⟨by decide, c4_budget_exhaustion semFail tcs3 buggyOrig [callA, callB] (by decide)
     [ServiceResponse.message [callA]]⟩

/-- Counterexample to C4 as stated: with budget 2 and a never-accepting
service that submits `codeA` twice, the session ends exhausted (2 service
calls, no success) after only 1 verification cycle — the duplicate-guarded
second cycle consumed budget without verification, so the session does not
perform "exactly N verification cycles with duplicate-guarded cycles not
counting". -/
theorem c4_duplicate_counts_counterexample :
    (fixRun semFail tcs3 buggyOrig 2 scriptAA).2.verifies = 1 ∧
    (fixRun semFail tcs3 buggyOrig 2 scriptAA).2.calls = 2 ∧
    (fixRun semFail tcs3 buggyOrig 2 scriptAA).2.succeeded = false ∧
    (run_code_tool semFail tcs3 (some codeA) codeA).result.duplicate_submission = true := by
  decide

